import Mathlib

/-!
Shallow embedding of the answer-scoring engine of the `simple_stresscheck`
crate (`src/lib.rs`): the fixed-capacity `AnswerStore`, the `reverse_if`
adjustment, the sum-up scorer, the conversion-table scorer and the two
stress-classification rules, together with theorems settling the claims
about them.

Machine integers (`u8`, `usize`) are modelled as `Nat`; values stored in an
`AnswerStore` are guarded to `1..=4` by the API, so the `u8` sums that occur
in scoring (at most `4*29 = 116`) never wrap.  Where a `u8` addition could
wrap for field values outside the producible range (`has_stress` on both
score types), the addition is embedded as `(x + y) % 256`.
-/

namespace StressCheck

/-- `Error` in `lib.rs`: the three failure kinds of the scoring core. -/
inductive Error where
  | IllegalQuestion
  | IllegalAnswer
  | NotFullfilled
deriving DecidableEq

/-- `AnswerStore`: the 57 answer slots (`0` = unset) and the append offset. -/
structure AnswerStore where
  values : List Nat
  offset : Nat
deriving DecidableEq

/-- `impl Default for AnswerStore`: all slots unset, offset `0`. -/
def AnswerStore.default : AnswerStore :=
  { values := List.replicate 57 0, offset := 0 }

/-- `AnswerStore::push`: append an answer at the current offset. -/
def AnswerStore.push (s : AnswerStore) (score : Nat) : Except Error AnswerStore :=
  if 1 ≤ score ∧ score ≤ 4 then
    if s.offset < 57 then
      .ok { values := s.values.set s.offset score, offset := s.offset + 1 }
    else
      .error .IllegalQuestion
  else
    .error .IllegalAnswer

/-- `AnswerStore::insert`: write an answer at a 1-based question number. -/
def AnswerStore.insert (s : AnswerStore) (question_no score : Nat) :
    Except Error AnswerStore :=
  if question_no < 1 then
    .error .IllegalQuestion
  else if 1 ≤ score ∧ score ≤ 4 then
    if question_no - 1 < 57 then
      .ok { values := s.values.set (question_no - 1) score, offset := s.offset }
    else
      .error .IllegalQuestion
  else
    .error .IllegalAnswer

/-- `reverse_if`: invert the 1-4 scale for the fixed reverse-scored set of
question numbers, leave every other answer unchanged. -/
def reverse_if (id score : Nat) : Nat :=
  if 1 ≤ id ∧ id ≤ 7 then 5 - score
  else if 11 ≤ id ∧ id ≤ 13 then 5 - score
  else if id = 15 then 5 - score
  else if 18 ≤ id ∧ id ≤ 20 then 5 - score
  else score

/-- `SumupScore`: the three domain sums of the sum-up method. -/
structure SumupScore where
  sum_a : Nat
  sum_b : Nat
  sum_c : Nat
deriving DecidableEq

/-- `impl Stress for SumupScore`, `has_stress`; `sum_a + sum_c` is a `u8`
addition, embedded with `% 256`. -/
def SumupScore.has_stress (s : SumupScore) : Bool :=
  decide (77 ≤ s.sum_b) ||
    (decide (76 ≤ (s.sum_a + s.sum_c) % 256) && decide (63 ≤ s.sum_b))

/-- `impl Stress for SumupScore`, `scores`. -/
def SumupScore.scores (s : SumupScore) : Nat × Nat × Nat :=
  (s.sum_a, s.sum_b, s.sum_c)

/-- The reverse-adjusted sequence built inside `to_sumup_score`:
`values.iter().enumerate().map(|(index, &value)| reverse_if((index + 1, value)))`. -/
def AnswerStore.adjusted_values (s : AnswerStore) : List Nat :=
  s.values.enum.map fun p => reverse_if (p.1 + 1) p.2

/-- `AnswerStore::to_sumup_score`. -/
def AnswerStore.to_sumup_score (s : AnswerStore) : Except Error SumupScore :=
  if s.values.any fun v => v == 0 then
    .error .NotFullfilled
  else
    .ok { sum_a := (s.adjusted_values.take 17).sum
          sum_b := ((s.adjusted_values.drop 17).take 29).sum
          sum_c := ((s.adjusted_values.drop 46).take 9).sum }

/-- An `AnswerStore` whose 57 slots are all set to answers in `1..=4`. -/
def AnswerStore.Filled (s : AnswerStore) : Prop :=
  s.values.length = 57 ∧ ∀ v ∈ s.values, 1 ≤ v ∧ v ≤ 4

instance (s : AnswerStore) : Decidable s.Filled := by
  unfold AnswerStore.Filled; infer_instance

/-- Sum of the reverse-adjusted values at the 1-based positions `lo..=hi`
(the spec's "sum of the reverse-adjusted values at positions lo-hi"). -/
def AnswerStore.spec_window_sum (s : AnswerStore) (lo hi : Nat) : Nat :=
  ((s.adjusted_values.drop (lo - 1)).take (hi + 1 - lo)).sum

/-- `IntermediateConversionScore`: the 18 raw sub-scale sums. -/
structure IntermediateConversionScore where
  mental_work_stress_volume : Nat
  mental_work_stress_quality : Nat
  aware_physical_stress : Nat
  work_people_stress : Nat
  work_env_stress : Nat
  work_control : Nat
  skill_apply : Nat
  work_apply : Nat
  decent_work : Nat
  vitality : Nat
  iraira : Nat
  tired : Nat
  anxious : Nat
  depressed : Nat
  physical_complaint : Nat
  boss_support : Nat
  colleague_support : Nat
  family_support : Nat
deriving DecidableEq

/-- `ConversionScore`: the 18 evaluation points (each `1..=5`). -/
structure ConversionScore where
  mental_work_stress_volume : Nat
  mental_work_stress_quality : Nat
  aware_physical_stress : Nat
  work_people_stress : Nat
  work_env_stress : Nat
  work_control : Nat
  skill_apply : Nat
  work_apply : Nat
  decent_work : Nat
  vitality : Nat
  iraira : Nat
  tired : Nat
  anxious : Nat
  depressed : Nat
  physical_complaint : Nat
  boss_support : Nat
  colleague_support : Nat
  family_support : Nat
deriving DecidableEq

/-- Lookup table for `mental_work_stress_volume` in the `TryFrom` impl. -/
def conv_mental_work_stress_volume (score : Nat) : Except Error Nat :=
  if 3 ≤ score ∧ score ≤ 5 then .ok 5
  else if 6 ≤ score ∧ score ≤ 7 then .ok 4
  else if 8 ≤ score ∧ score ≤ 9 then .ok 3
  else if 10 ≤ score ∧ score ≤ 11 then .ok 2
  else if score = 12 then .ok 1
  else .error .IllegalAnswer

/-- Lookup table for `mental_work_stress_quality` in the `TryFrom` impl. -/
def conv_mental_work_stress_quality (score : Nat) : Except Error Nat :=
  if 3 ≤ score ∧ score ≤ 5 then .ok 5
  else if 6 ≤ score ∧ score ≤ 7 then .ok 4
  else if 8 ≤ score ∧ score ≤ 9 then .ok 3
  else if 10 ≤ score ∧ score ≤ 11 then .ok 2
  else if score = 12 then .ok 1
  else .error .IllegalAnswer

/-- Lookup table for `aware_physical_stress` in the `TryFrom` impl. -/
def conv_aware_physical_stress (score : Nat) : Except Error Nat :=
  if score = 1 then .ok 4
  else if score = 2 then .ok 3
  else if score = 3 then .ok 2
  else if score = 4 then .ok 1
  else .error .IllegalAnswer

/-- Lookup table for `work_people_stress` in the `TryFrom` impl. -/
def conv_work_people_stress (score : Nat) : Except Error Nat :=
  if score = 3 then .ok 5
  else if 4 ≤ score ∧ score ≤ 5 then .ok 4
  else if 6 ≤ score ∧ score ≤ 7 then .ok 3
  else if 8 ≤ score ∧ score ≤ 9 then .ok 2
  else if 10 ≤ score ∧ score ≤ 12 then .ok 1
  else .error .IllegalAnswer

/-- Lookup table for `work_env_stress` in the `TryFrom` impl. -/
def conv_work_env_stress (score : Nat) : Except Error Nat :=
  if score = 1 then .ok 4
  else if score = 2 then .ok 3
  else if score = 3 then .ok 2
  else if score = 4 then .ok 1
  else .error .IllegalAnswer

/-- Lookup table for `work_control` in the `TryFrom` impl. -/
def conv_work_control (score : Nat) : Except Error Nat :=
  if 3 ≤ score ∧ score ≤ 4 then .ok 1
  else if 5 ≤ score ∧ score ≤ 6 then .ok 2
  else if 7 ≤ score ∧ score ≤ 8 then .ok 3
  else if 9 ≤ score ∧ score ≤ 10 then .ok 4
  else if 11 ≤ score ∧ score ≤ 12 then .ok 5
  else .error .IllegalAnswer

/-- Lookup table for `skill_apply` in the `TryFrom` impl. -/
def conv_skill_apply (score : Nat) : Except Error Nat :=
  if score = 1 then .ok 1
  else if score = 2 then .ok 2
  else if score = 3 then .ok 3
  else if score = 4 then .ok 4
  else .error .IllegalAnswer

/-- Lookup table for `work_apply` in the `TryFrom` impl. -/
def conv_work_apply (score : Nat) : Except Error Nat :=
  if score = 1 then .ok 1
  else if score = 2 then .ok 2
  else if score = 3 then .ok 3
  else if score = 4 then .ok 5
  else .error .IllegalAnswer

/-- Lookup table for `decent_work` in the `TryFrom` impl. -/
def conv_decent_work (score : Nat) : Except Error Nat :=
  if score = 1 then .ok 1
  else if score = 2 then .ok 2
  else if score = 3 then .ok 3
  else if score = 4 then .ok 5
  else .error .IllegalAnswer

/-- Lookup table for `vitality` in the `TryFrom` impl. -/
def conv_vitality (score : Nat) : Except Error Nat :=
  if score = 3 then .ok 1
  else if 4 ≤ score ∧ score ≤ 5 then .ok 2
  else if 6 ≤ score ∧ score ≤ 7 then .ok 3
  else if 8 ≤ score ∧ score ≤ 9 then .ok 4
  else if 10 ≤ score ∧ score ≤ 12 then .ok 5
  else .error .IllegalAnswer

/-- Lookup table for `iraira` in the `TryFrom` impl. -/
def conv_iraira (score : Nat) : Except Error Nat :=
  if score = 3 then .ok 5
  else if 4 ≤ score ∧ score ≤ 5 then .ok 4
  else if 6 ≤ score ∧ score ≤ 7 then .ok 3
  else if 8 ≤ score ∧ score ≤ 9 then .ok 2
  else if 10 ≤ score ∧ score ≤ 12 then .ok 1
  else .error .IllegalAnswer

/-- Lookup table for `tired` in the `TryFrom` impl. -/
def conv_tired (score : Nat) : Except Error Nat :=
  if score = 3 then .ok 5
  else if score = 4 then .ok 4
  else if 5 ≤ score ∧ score ≤ 7 then .ok 3
  else if 8 ≤ score ∧ score ≤ 10 then .ok 2
  else if 11 ≤ score ∧ score ≤ 12 then .ok 1
  else .error .IllegalAnswer

/-- Lookup table for `anxious` in the `TryFrom` impl. -/
def conv_anxious (score : Nat) : Except Error Nat :=
  if score = 3 then .ok 5
  else if score = 4 then .ok 4
  else if 5 ≤ score ∧ score ≤ 7 then .ok 3
  else if 8 ≤ score ∧ score ≤ 9 then .ok 2
  else if 10 ≤ score ∧ score ≤ 12 then .ok 1
  else .error .IllegalAnswer

/-- Lookup table for `depressed` in the `TryFrom` impl. -/
def conv_depressed (score : Nat) : Except Error Nat :=
  if score = 6 then .ok 5
  else if 7 ≤ score ∧ score ≤ 8 then .ok 4
  else if 9 ≤ score ∧ score ≤ 12 then .ok 3
  else if 13 ≤ score ∧ score ≤ 16 then .ok 2
  else if 17 ≤ score ∧ score ≤ 24 then .ok 1
  else .error .IllegalAnswer

/-- Lookup table for `physical_complaint` in the `TryFrom` impl. -/
def conv_physical_complaint (score : Nat) : Except Error Nat :=
  if score = 11 then .ok 5
  else if 12 ≤ score ∧ score ≤ 15 then .ok 4
  else if 16 ≤ score ∧ score ≤ 21 then .ok 3
  else if 22 ≤ score ∧ score ≤ 26 then .ok 2
  else if 27 ≤ score ∧ score ≤ 44 then .ok 1
  else .error .IllegalAnswer

/-- Lookup table for `boss_support` in the `TryFrom` impl. -/
def conv_boss_support (score : Nat) : Except Error Nat :=
  if 3 ≤ score ∧ score ≤ 4 then .ok 1
  else if 5 ≤ score ∧ score ≤ 6 then .ok 2
  else if 7 ≤ score ∧ score ≤ 8 then .ok 3
  else if 9 ≤ score ∧ score ≤ 10 then .ok 4
  else if 11 ≤ score ∧ score ≤ 12 then .ok 5
  else .error .IllegalAnswer

/-- Lookup table for `colleague_support` in the `TryFrom` impl. -/
def conv_colleague_support (score : Nat) : Except Error Nat :=
  if 3 ≤ score ∧ score ≤ 5 then .ok 1
  else if 6 ≤ score ∧ score ≤ 7 then .ok 2
  else if 8 ≤ score ∧ score ≤ 9 then .ok 3
  else if 10 ≤ score ∧ score ≤ 11 then .ok 4
  else if score = 12 then .ok 5
  else .error .IllegalAnswer

/-- Lookup table for `family_support` in the `TryFrom` impl. -/
def conv_family_support (score : Nat) : Except Error Nat :=
  if 3 ≤ score ∧ score ≤ 6 then .ok 1
  else if 7 ≤ score ∧ score ≤ 8 then .ok 2
  else if score = 9 then .ok 3
  else if 10 ≤ score ∧ score ≤ 11 then .ok 4
  else if score = 12 then .ok 5
  else .error .IllegalAnswer

/-- `TryFrom<IntermediateConversionScore> for ConversionScore`: map every raw
sub-scale sum through its lookup table. -/
def try_from (score : IntermediateConversionScore) : Except Error ConversionScore := do
  let mental_work_stress_volume ← conv_mental_work_stress_volume score.mental_work_stress_volume
  let mental_work_stress_quality ← conv_mental_work_stress_quality score.mental_work_stress_quality
  let aware_physical_stress ← conv_aware_physical_stress score.aware_physical_stress
  let work_people_stress ← conv_work_people_stress score.work_people_stress
  let work_env_stress ← conv_work_env_stress score.work_env_stress
  let work_control ← conv_work_control score.work_control
  let skill_apply ← conv_skill_apply score.skill_apply
  let work_apply ← conv_work_apply score.work_apply
  let decent_work ← conv_decent_work score.decent_work
  let vitality ← conv_vitality score.vitality
  let iraira ← conv_iraira score.iraira
  let tired ← conv_tired score.tired
  let anxious ← conv_anxious score.anxious
  let depressed ← conv_depressed score.depressed
  let physical_complaint ← conv_physical_complaint score.physical_complaint
  let boss_support ← conv_boss_support score.boss_support
  let colleague_support ← conv_colleague_support score.colleague_support
  let family_support ← conv_family_support score.family_support
  pure { mental_work_stress_volume, mental_work_stress_quality, aware_physical_stress,
         work_people_stress, work_env_stress, work_control, skill_apply, work_apply,
         decent_work, vitality, iraira, tired, anxious, depressed, physical_complaint,
         boss_support, colleague_support, family_support }

/-- `Option::ok_or(Error::IllegalAnswer)` applied to an array lookup. -/
def ok_or_illegal : Option Nat → Except Error Nat
  | some v => .ok v
  | none => .error .IllegalAnswer

/-- `AnswerStore::to_conversion_score`. -/
def AnswerStore.to_conversion_score (s : AnswerStore) : Except Error ConversionScore :=
  if s.values.any fun v => v == 0 then
    .error .NotFullfilled
  else do
    let a7 ← ok_or_illegal (s.values.get? 6)
    let a14 ← ok_or_illegal (s.values.get? 13)
    let a15 ← ok_or_illegal (s.values.get? 14)
    let a11 ← ok_or_illegal (s.values.get? 10)
    let a16 ← ok_or_illegal (s.values.get? 15)
    let a17 ← ok_or_illegal (s.values.get? 16)
    let a47 ← ok_or_illegal (s.values.get? 46)
    let a50 ← ok_or_illegal (s.values.get? 49)
    let a53 ← ok_or_illegal (s.values.get? 52)
    let a48 ← ok_or_illegal (s.values.get? 47)
    let a51 ← ok_or_illegal (s.values.get? 50)
    let a54 ← ok_or_illegal (s.values.get? 53)
    let a49 ← ok_or_illegal (s.values.get? 48)
    let a52 ← ok_or_illegal (s.values.get? 51)
    let a55 ← ok_or_illegal (s.values.get? 54)
    try_from
      { mental_work_stress_volume := 15 - (s.values.take 3).sum
        mental_work_stress_quality := 15 - ((s.values.drop 3).take 3).sum
        aware_physical_stress := 5 - a7
        work_people_stress := 10 - ((s.values.drop 11).take 2).sum + a14
        work_env_stress := 5 - a15
        work_control := 15 - ((s.values.drop 7).take 3).sum
        skill_apply := a11
        work_apply := 5 - a16
        decent_work := 5 - a17
        vitality := ((s.values.drop 17).take 3).sum
        iraira := ((s.values.drop 20).take 3).sum
        tired := ((s.values.drop 23).take 3).sum
        anxious := ((s.values.drop 26).take 3).sum
        depressed := ((s.values.drop 29).take 6).sum
        physical_complaint := ((s.values.drop 35).take 11).sum
        boss_support := 15 - (a47 + a50 + a53)
        colleague_support := 15 - (a48 + a51 + a54)
        family_support := 15 - (a49 + a52 + a55) }

/-- `impl Stress for ConversionScore`, `scores`: the three domain sums of
evaluation points (`u8` additions, embedded with `% 256`). -/
def ConversionScore.scores (c : ConversionScore) : Nat × Nat × Nat :=
  ((c.mental_work_stress_volume + c.mental_work_stress_quality + c.aware_physical_stress +
      c.work_people_stress + c.work_env_stress + c.work_control + c.skill_apply +
      c.work_apply + c.decent_work) % 256,
   (c.vitality + c.iraira + c.tired + c.anxious + c.depressed + c.physical_complaint) % 256,
   (c.boss_support + c.colleague_support + c.family_support) % 256)

/-- `impl Stress for ConversionScore`, `has_stress`; `sum_a + sum_c` is a
`u8` addition, embedded with `% 256`. -/
def ConversionScore.has_stress (c : ConversionScore) : Bool :=
  let sums := c.scores
  decide (sums.2.1 ≤ 12) ||
    (decide ((sums.1 + sums.2.2) % 256 ≤ 26) && decide (sums.2.1 ≤ 17))

/-- The data-model constraint on `ConversionScore`: every evaluation point is
in `1..=5` (what `try_from` in fact produces). -/
def ConversionScore.Valid (c : ConversionScore) : Prop :=
  (1 ≤ c.mental_work_stress_volume ∧ c.mental_work_stress_volume ≤ 5) ∧
  (1 ≤ c.mental_work_stress_quality ∧ c.mental_work_stress_quality ≤ 5) ∧
  (1 ≤ c.aware_physical_stress ∧ c.aware_physical_stress ≤ 5) ∧
  (1 ≤ c.work_people_stress ∧ c.work_people_stress ≤ 5) ∧
  (1 ≤ c.work_env_stress ∧ c.work_env_stress ≤ 5) ∧
  (1 ≤ c.work_control ∧ c.work_control ≤ 5) ∧
  (1 ≤ c.skill_apply ∧ c.skill_apply ≤ 5) ∧
  (1 ≤ c.work_apply ∧ c.work_apply ≤ 5) ∧
  (1 ≤ c.decent_work ∧ c.decent_work ≤ 5) ∧
  (1 ≤ c.vitality ∧ c.vitality ≤ 5) ∧
  (1 ≤ c.iraira ∧ c.iraira ≤ 5) ∧
  (1 ≤ c.tired ∧ c.tired ≤ 5) ∧
  (1 ≤ c.anxious ∧ c.anxious ≤ 5) ∧
  (1 ≤ c.depressed ∧ c.depressed ≤ 5) ∧
  (1 ≤ c.physical_complaint ∧ c.physical_complaint ≤ 5) ∧
  (1 ≤ c.boss_support ∧ c.boss_support ≤ 5) ∧
  (1 ≤ c.colleague_support ∧ c.colleague_support ≤ 5) ∧
  (1 ≤ c.family_support ∧ c.family_support ≤ 5)

instance (c : ConversionScore) : Decidable c.Valid := by
  unfold ConversionScore.Valid; infer_instance

instance {e a : Type} [DecidableEq e] [DecidableEq a] : DecidableEq (Except e a) :=
  fun x y =>
    match x, y with
    | .ok u, .ok v =>
        if h : u = v then .isTrue (by rw [h]) else .isFalse fun hh => h (Except.ok.inj hh)
    | .error u, .error v =>
        if h : u = v then .isTrue (by rw [h]) else .isFalse fun hh => h (Except.error.inj hh)
    | .ok _, .error _ => .isFalse fun hh => Except.noConfusion hh
    | .error _, .ok _ => .isFalse fun hh => Except.noConfusion hh

/-- The store in which all 57 answers equal `1` (57 successful `push(1)` calls). -/
def allOnes : AnswerStore := { values := List.replicate 57 1, offset := 57 }

/-- C5: for every question number `n` in `1..=57` and raw answer `v` in
`1..=4`, `reverse_if` yields `5 - v` exactly when `n` lies in the fixed set
`{1..7, 11, 12, 13, 15, 18, 19, 20}`, and yields `v` unchanged otherwise. -/
theorem reverse_if_spec (n v : Nat) (hn1 : 1 ≤ n) (hn2 : n ≤ 57)
    (hv1 : 1 ≤ v) (hv2 : v ≤ 4) :
    reverse_if n v =
      if (1 ≤ n ∧ n ≤ 7) ∨ n = 11 ∨ n = 12 ∨ n = 13 ∨ n = 15 ∨
          n = 18 ∨ n = 19 ∨ n = 20
      then 5 - v else v := by
  unfold reverse_if
  split_ifs <;> omega

/-- Witness for `reverse_if_spec` at `n = 18`, `v = 3`. -/
theorem reverse_if_spec_witness :
    (1 ≤ 18 ∧ 18 ≤ 57 ∧ 1 ≤ 3 ∧ 3 ≤ 4) ∧
      reverse_if 18 3 =
        if (1 ≤ 18 ∧ 18 ≤ 7) ∨ 18 = 11 ∨ 18 = 12 ∨ 18 = 13 ∨ 18 = 15 ∨
            18 = 18 ∨ 18 = 19 ∨ 18 = 20
        then 5 - 3 else 3 :=
  ⟨by decide, reverse_if_spec 18 3 (by decide) (by decide) (by decide) (by decide)⟩

/-- C3: on every `SumupScore` in the producible range (`sum_a ≤ 68`,
`sum_c ≤ 36`, so the `u8` addition `sum_a + sum_c` cannot wrap),
`has_stress` is `true` exactly when `sum_b ≥ 77`, or `sum_a + sum_c ≥ 76`
and `sum_b ≥ 63`. -/
theorem sumup_has_stress_iff (s : SumupScore) (ha : s.sum_a ≤ 68) (hc : s.sum_c ≤ 36) :
    s.has_stress = true ↔
      77 ≤ s.sum_b ∨ (76 ≤ s.sum_a + s.sum_c ∧ 63 ≤ s.sum_b) := by
  have hmod : (s.sum_a + s.sum_c) % 256 = s.sum_a + s.sum_c :=
    Nat.mod_eq_of_lt (by omega)
  simp [SumupScore.has_stress, hmod]

/-- Witness for `sumup_has_stress_iff` at the boundary score `(17, 77, 9)`. -/
theorem sumup_has_stress_iff_witness :
    ((17 : Nat) ≤ 68 ∧ (9 : Nat) ≤ 36) ∧
      ((SumupScore.mk 17 77 9).has_stress = true ↔
        77 ≤ (SumupScore.mk 17 77 9).sum_b ∨
          (76 ≤ (SumupScore.mk 17 77 9).sum_a + (SumupScore.mk 17 77 9).sum_c ∧
            63 ≤ (SumupScore.mk 17 77 9).sum_b)) :=
  ⟨by decide, sumup_has_stress_iff (SumupScore.mk 17 77 9) (by decide) (by decide)⟩

/-- C4: on every `ConversionScore` whose 18 evaluation points are in `1..=5`
(the only ones `try_from` produces), `has_stress` is `true` exactly when the
B-domain sum is at most 12, or the A-domain plus C-domain sum is at most 26
and the B-domain sum is at most 17. -/
theorem conversion_has_stress_iff (c : ConversionScore) (h : c.Valid) :
    c.has_stress = true ↔
      (c.vitality + c.iraira + c.tired + c.anxious + c.depressed +
          c.physical_complaint ≤ 12 ∨
        ((c.mental_work_stress_volume + c.mental_work_stress_quality +
            c.aware_physical_stress + c.work_people_stress + c.work_env_stress +
            c.work_control + c.skill_apply + c.work_apply + c.decent_work) +
          (c.boss_support + c.colleague_support + c.family_support) ≤ 26 ∧
          c.vitality + c.iraira + c.tired + c.anxious + c.depressed +
            c.physical_complaint ≤ 17)) := by
  obtain ⟨h1, h2, h3, h4, h5, h6, h7, h8, h9, h10, h11, h12, h13, h14, h15,
    h16, h17, h18⟩ := h
  have hA : (c.mental_work_stress_volume + c.mental_work_stress_quality +
      c.aware_physical_stress + c.work_people_stress + c.work_env_stress +
      c.work_control + c.skill_apply + c.work_apply + c.decent_work) % 256 =
      c.mental_work_stress_volume + c.mental_work_stress_quality +
      c.aware_physical_stress + c.work_people_stress + c.work_env_stress +
      c.work_control + c.skill_apply + c.work_apply + c.decent_work :=
    Nat.mod_eq_of_lt (by omega)
  have hB : (c.vitality + c.iraira + c.tired + c.anxious + c.depressed +
      c.physical_complaint) % 256 =
      c.vitality + c.iraira + c.tired + c.anxious + c.depressed +
      c.physical_complaint :=
    Nat.mod_eq_of_lt (by omega)
  have hC : (c.boss_support + c.colleague_support + c.family_support) % 256 =
      c.boss_support + c.colleague_support + c.family_support :=
    Nat.mod_eq_of_lt (by omega)
  simp only [ConversionScore.has_stress, ConversionScore.scores, hA, hB, hC,
    Bool.or_eq_true, Bool.and_eq_true, decide_eq_true_eq]
  constructor
  · rintro (hb | ⟨hac, hb⟩)
    · exact Or.inl hb
    · exact Or.inr ⟨by omega, hb⟩
  · rintro (hb | ⟨hac, hb⟩)
    · exact Or.inl hb
    · refine Or.inr ⟨?_, hb⟩
      rw [Nat.mod_eq_of_lt (by omega)]
      omega

/-- Witness for `conversion_has_stress_iff` at the all-threes score. -/
theorem conversion_has_stress_iff_witness :
    (ConversionScore.mk 3 3 3 3 3 3 3 3 3 3 3 3 3 3 3 3 3 3).Valid ∧
      ((ConversionScore.mk 3 3 3 3 3 3 3 3 3 3 3 3 3 3 3 3 3 3).has_stress = true ↔
        (3 + 3 + 3 + 3 + 3 + 3 ≤ 12 ∨
          ((3 + 3 + 3 + 3 + 3 + 3 + 3 + 3 + 3) + (3 + 3 + 3) ≤ 26 ∧
            3 + 3 + 3 + 3 + 3 + 3 ≤ 17))) :=
  ⟨by decide,
    conversion_has_stress_iff (ConversionScore.mk 3 3 3 3 3 3 3 3 3 3 3 3 3 3 3 3 3 3)
      (by decide)⟩

/-- C8: for the store in which all 57 answers equal `1`, `to_conversion_score`
succeeds, the derived domain sums are `(22, 26, 15)` and `has_stress` is
`false`. -/
theorem all_ones_conversion_score :
    (allOnes.to_conversion_score.map fun c => (c.scores, c.has_stress)) =
      .ok ((22, 26, 15), false) := by
  decide

/-- C6: whenever at least one of the 57 slots is still unset (equal to `0`),
both scorers fail with `NotFullfilled`, regardless of which slots are unset
and of how the others were written. -/
theorem unset_slot_not_fulfilled (s : AnswerStore) (h : 0 ∈ s.values) :
    s.to_sumup_score = .error .NotFullfilled ∧
      s.to_conversion_score = .error .NotFullfilled := by
  have hany : (s.values.any fun v => v == 0) = true :=
    List.any_eq_true.mpr ⟨0, h, by decide⟩
  constructor <;>
    simp [AnswerStore.to_sumup_score, AnswerStore.to_conversion_score, hany]

/-- Witness for `unset_slot_not_fulfilled` at the default (all-unset) store. -/
theorem unset_slot_not_fulfilled_witness :
    0 ∈ AnswerStore.default.values ∧
      (AnswerStore.default.to_sumup_score = .error .NotFullfilled ∧
        AnswerStore.default.to_conversion_score = .error .NotFullfilled) :=
  ⟨by decide, unset_slot_not_fulfilled AnswerStore.default (by decide)⟩

/-- C7 counterexample: `insert(58, 5)` has a question number exceeding 57 but
fails with `IllegalAnswer`, not `IllegalQuestion` — the answer range is
checked before the upper question-number bound. -/
theorem insert_error_order_counterexample :
    AnswerStore.default.insert 58 5 = .error .IllegalAnswer ∧
      Error.IllegalAnswer ≠ Error.IllegalQuestion := by
  decide

/-- C7 (amended): `insert` fails with `IllegalQuestion` if the question
number is `0`; otherwise it fails with `IllegalAnswer` if the answer is
outside `1..=4`; otherwise it fails with `IllegalQuestion` if the question
number exceeds 57; otherwise it succeeds, overwriting the addressed slot and
leaving the offset unchanged. -/
theorem insert_spec (s : AnswerStore) (q a : Nat) :
    (q = 0 → s.insert q a = .error .IllegalQuestion) ∧
      (1 ≤ q → ¬(1 ≤ a ∧ a ≤ 4) → s.insert q a = .error .IllegalAnswer) ∧
      (1 ≤ q → 57 < q → 1 ≤ a → a ≤ 4 → s.insert q a = .error .IllegalQuestion) ∧
      (1 ≤ q → q ≤ 57 → 1 ≤ a → a ≤ 4 →
        s.insert q a = .ok { values := s.values.set (q - 1) a, offset := s.offset }) := by
  unfold AnswerStore.insert
  refine ⟨?_, ?_, ?_, ?_⟩ <;> intros <;> split_ifs <;> first | rfl | omega

/-- Witness for `insert_spec`: a successful overwrite at question 3 and the
`IllegalQuestion` failure at question 0. -/
theorem insert_spec_witness :
    AnswerStore.default.insert 3 2 =
        .ok { values := AnswerStore.default.values.set 2 2,
              offset := AnswerStore.default.offset } ∧
      AnswerStore.default.insert 0 2 = .error .IllegalQuestion :=
  ⟨(insert_spec AnswerStore.default 3 2).2.2.2 (by decide) (by decide) (by decide) (by decide),
    (insert_spec AnswerStore.default 0 2).1 rfl⟩

/-- One mutation step of the store: a `push` or `insert` call; a failing call
leaves the store unchanged. -/
inductive Op where
  | push (score : Nat)
  | insert (question_no score : Nat)

/-- Apply one `push`/`insert` call, keeping the old store on failure. -/
def AnswerStore.apply_op (s : AnswerStore) : Op → AnswerStore
  | .push v =>
      match s.push v with
      | .ok s2 => s2
      | .error _ => s
  | .insert q v =>
      match s.insert q v with
      | .ok s2 => s2
      | .error _ => s

/-- Run a sequence of `push`/`insert` calls from a store. -/
def AnswerStore.run (s : AnswerStore) (ops : List Op) : AnswerStore :=
  ops.foldl AnswerStore.apply_op s

/-- The data-model invariant of `AnswerStore`: exactly 57 slots, every stored
value `0` (unset) or in `1..=4`, and the offset never exceeds 57. -/
def AnswerStore.Invariant (s : AnswerStore) : Prop :=
  s.values.length = 57 ∧ (∀ v ∈ s.values, v = 0 ∨ (1 ≤ v ∧ v ≤ 4)) ∧ s.offset ≤ 57

instance (s : AnswerStore) : Decidable s.Invariant := by
  unfold AnswerStore.Invariant; infer_instance

lemma invariant_push (s : AnswerStore) (v : Nat) (h : s.Invariant) :
    (match s.push v with | .ok s2 => s2 | .error _ => s).Invariant := by
  obtain ⟨hlen, hvals, hoff⟩ := h
  rw [AnswerStore.push]
  split_ifs with h1 h2
  · refine ⟨by simpa using hlen, fun w hw => ?_, by simpa using by omega⟩
    rcases List.mem_or_eq_of_mem_set (by simpa using hw) with hmem | rfl
    · exact hvals w hmem
    · exact Or.inr h1
  · exact ⟨hlen, hvals, hoff⟩
  · exact ⟨hlen, hvals, hoff⟩

lemma invariant_insert (s : AnswerStore) (q v : Nat) (h : s.Invariant) :
    (match s.insert q v with | .ok s2 => s2 | .error _ => s).Invariant := by
  obtain ⟨hlen, hvals, hoff⟩ := h
  rw [AnswerStore.insert]
  split_ifs with h1 h2 h3
  · exact ⟨hlen, hvals, hoff⟩
  · refine ⟨by simpa using hlen, fun w hw => ?_, by simpa using hoff⟩
    rcases List.mem_or_eq_of_mem_set (by simpa using hw) with hmem | rfl
    · exact hvals w hmem
    · exact Or.inr h2
  · exact ⟨hlen, hvals, hoff⟩
  · exact ⟨hlen, hvals, hoff⟩

lemma invariant_apply_op (s : AnswerStore) (op : Op) (h : s.Invariant) :
    (s.apply_op op).Invariant := by
  cases op with
  | push v => exact invariant_push s v h
  | insert q v => exact invariant_insert s q v h

lemma invariant_run (s : AnswerStore) (ops : List Op) (h : s.Invariant) :
    (s.run ops).Invariant := by
  induction ops generalizing s with
  | nil => exact h
  | cons op ops ih =>
      exact ih (s.apply_op op) (invariant_apply_op s op h)

/-- C9: every store reachable from the default (all-unset) store by any
sequence of `push` and `insert` calls — failing calls included, which leave
the store unchanged — has exactly 57 slots, stores only `0` or values in
`1..=4`, and keeps its offset at most 57. -/
theorem reachable_invariant (ops : List Op) :
    (AnswerStore.default.run ops).Invariant :=
  invariant_run AnswerStore.default ops (by decide)

lemma any_zero_false (s : AnswerStore) (h : ∀ v ∈ s.values, 1 ≤ v ∧ v ≤ 4) :
    (s.values.any fun v => v == 0) = false := by
  rw [List.any_eq_false]
  intro v hv
  have h1 := (h v hv).1
  simp only [beq_iff_eq]
  omega

/-- C1 counterexample: on the all-ones store (all 57 slots in `1..=4`),
`to_sumup_score` does not return a `sum_c` equal to the sum of the
reverse-adjusted values at positions 47-57: the code sums positions 47-55
(9 values, giving 9 here), while positions 47-57 sum to 11. -/
theorem sumup_windows_counterexample :
    allOnes.Filled ∧
      ¬ ∃ r, allOnes.to_sumup_score = .ok r ∧
        r.sum_a = allOnes.spec_window_sum 1 17 ∧
        r.sum_b = allOnes.spec_window_sum 18 46 ∧
        r.sum_c = allOnes.spec_window_sum 47 57 := by
  refine ⟨by decide, ?_⟩
  rintro ⟨r, hr, -, -, hc⟩
  have hd : allOnes.to_sumup_score = .ok (SumupScore.mk 50 38 9) := by decide
  rw [hd] at hr
  have hr9 : SumupScore.mk 50 38 9 = r := Except.ok.inj hr
  rw [← hr9] at hc
  have h11 : allOnes.spec_window_sum 47 57 = 11 := by decide
  rw [h11] at hc
  exact absurd hc (by decide)

/-- C1 (amended): for every store whose 57 slots are all in `1..=4`,
`to_sumup_score` returns `Ok` with `sum_a` the sum of the reverse-adjusted
values at positions 1-17, `sum_b` at positions 18-46, and `sum_c` at
positions 47-55 (the code takes 9 values starting at position 47; positions
56 and 57 do not enter any domain sum). -/
theorem to_sumup_score_windows (s : AnswerStore) (h : s.Filled) :
    s.to_sumup_score =
      .ok { sum_a := s.spec_window_sum 1 17,
            sum_b := s.spec_window_sum 18 46,
            sum_c := s.spec_window_sum 47 55 } := by
  have hany := any_zero_false s h.2
  rw [AnswerStore.to_sumup_score, if_neg (by simp [hany])]
  unfold AnswerStore.spec_window_sum
  norm_num

/-- Witness for `to_sumup_score_windows` at the all-ones store. -/
theorem to_sumup_score_windows_witness :
    allOnes.Filled ∧
      allOnes.to_sumup_score =
        .ok { sum_a := allOnes.spec_window_sum 1 17,
              sum_b := allOnes.spec_window_sum 18 46,
              sum_c := allOnes.spec_window_sum 47 55 } :=
  ⟨by decide, to_sumup_score_windows allOnes (by decide)⟩

lemma sum_bounds_of_mem (l : List Nat) (h : ∀ v ∈ l, 1 ≤ v ∧ v ≤ 4) :
    l.length ≤ l.sum ∧ l.sum ≤ 4 * l.length := by
  induction l with
  | nil => simp
  | cons x xs ih =>
      have hx := h x (List.mem_cons_self x xs)
      have hxs := ih fun v hv => h v (List.mem_cons_of_mem x hv)
      simp only [List.sum_cons, List.length_cons]
      omega

lemma except_ok_bind {e a b : Type} (x : a) (f : a → Except e b) :
    (Except.ok x >>= f : Except e b) = f x := rfl

lemma conv_volume_ok (x : Nat) (h1 : 3 ≤ x) (h2 : x ≤ 12) :
    ∃ y, conv_mental_work_stress_volume x = .ok y ∧ 1 ≤ y ∧ y ≤ 5 := by
  unfold conv_mental_work_stress_volume
  split_ifs <;> first | exact ⟨_, rfl, by omega⟩ | omega

lemma conv_quality_ok (x : Nat) (h1 : 3 ≤ x) (h2 : x ≤ 12) :
    ∃ y, conv_mental_work_stress_quality x = .ok y ∧ 1 ≤ y ∧ y ≤ 5 := by
  unfold conv_mental_work_stress_quality
  split_ifs <;> first | exact ⟨_, rfl, by omega⟩ | omega

lemma conv_aware_ok (x : Nat) (h1 : 1 ≤ x) (h2 : x ≤ 4) :
    ∃ y, conv_aware_physical_stress x = .ok y ∧ 1 ≤ y ∧ y ≤ 5 := by
  unfold conv_aware_physical_stress
  split_ifs <;> first | exact ⟨_, rfl, by omega⟩ | omega

lemma conv_people_ok (x : Nat) (h1 : 3 ≤ x) (h2 : x ≤ 12) :
    ∃ y, conv_work_people_stress x = .ok y ∧ 1 ≤ y ∧ y ≤ 5 := by
  unfold conv_work_people_stress
  split_ifs <;> first | exact ⟨_, rfl, by omega⟩ | omega

lemma conv_env_ok (x : Nat) (h1 : 1 ≤ x) (h2 : x ≤ 4) :
    ∃ y, conv_work_env_stress x = .ok y ∧ 1 ≤ y ∧ y ≤ 5 := by
  unfold conv_work_env_stress
  split_ifs <;> first | exact ⟨_, rfl, by omega⟩ | omega

lemma conv_control_ok (x : Nat) (h1 : 3 ≤ x) (h2 : x ≤ 12) :
    ∃ y, conv_work_control x = .ok y ∧ 1 ≤ y ∧ y ≤ 5 := by
  unfold conv_work_control
  split_ifs <;> first | exact ⟨_, rfl, by omega⟩ | omega

lemma conv_skill_ok (x : Nat) (h1 : 1 ≤ x) (h2 : x ≤ 4) :
    ∃ y, conv_skill_apply x = .ok y ∧ 1 ≤ y ∧ y ≤ 5 := by
  unfold conv_skill_apply
  split_ifs <;> first | exact ⟨_, rfl, by omega⟩ | omega

lemma conv_work_apply_ok (x : Nat) (h1 : 1 ≤ x) (h2 : x ≤ 4) :
    ∃ y, conv_work_apply x = .ok y ∧ 1 ≤ y ∧ y ≤ 5 := by
  unfold conv_work_apply
  split_ifs <;> first | exact ⟨_, rfl, by omega⟩ | omega

lemma conv_decent_ok (x : Nat) (h1 : 1 ≤ x) (h2 : x ≤ 4) :
    ∃ y, conv_decent_work x = .ok y ∧ 1 ≤ y ∧ y ≤ 5 := by
  unfold conv_decent_work
  split_ifs <;> first | exact ⟨_, rfl, by omega⟩ | omega

lemma conv_vitality_ok (x : Nat) (h1 : 3 ≤ x) (h2 : x ≤ 12) :
    ∃ y, conv_vitality x = .ok y ∧ 1 ≤ y ∧ y ≤ 5 := by
  unfold conv_vitality
  split_ifs <;> first | exact ⟨_, rfl, by omega⟩ | omega

lemma conv_iraira_ok (x : Nat) (h1 : 3 ≤ x) (h2 : x ≤ 12) :
    ∃ y, conv_iraira x = .ok y ∧ 1 ≤ y ∧ y ≤ 5 := by
  unfold conv_iraira
  split_ifs <;> first | exact ⟨_, rfl, by omega⟩ | omega

lemma conv_tired_ok (x : Nat) (h1 : 3 ≤ x) (h2 : x ≤ 12) :
    ∃ y, conv_tired x = .ok y ∧ 1 ≤ y ∧ y ≤ 5 := by
  unfold conv_tired
  split_ifs <;> first | exact ⟨_, rfl, by omega⟩ | omega

lemma conv_anxious_ok (x : Nat) (h1 : 3 ≤ x) (h2 : x ≤ 12) :
    ∃ y, conv_anxious x = .ok y ∧ 1 ≤ y ∧ y ≤ 5 := by
  unfold conv_anxious
  split_ifs <;> first | exact ⟨_, rfl, by omega⟩ | omega

lemma conv_depressed_ok (x : Nat) (h1 : 6 ≤ x) (h2 : x ≤ 24) :
    ∃ y, conv_depressed x = .ok y ∧ 1 ≤ y ∧ y ≤ 5 := by
  unfold conv_depressed
  split_ifs <;> first | exact ⟨_, rfl, by omega⟩ | omega

lemma conv_physical_ok (x : Nat) (h1 : 11 ≤ x) (h2 : x ≤ 44) :
    ∃ y, conv_physical_complaint x = .ok y ∧ 1 ≤ y ∧ y ≤ 5 := by
  unfold conv_physical_complaint
  split_ifs <;> first | exact ⟨_, rfl, by omega⟩ | omega

lemma conv_boss_ok (x : Nat) (h1 : 3 ≤ x) (h2 : x ≤ 12) :
    ∃ y, conv_boss_support x = .ok y ∧ 1 ≤ y ∧ y ≤ 5 := by
  unfold conv_boss_support
  split_ifs <;> first | exact ⟨_, rfl, by omega⟩ | omega

lemma conv_colleague_ok (x : Nat) (h1 : 3 ≤ x) (h2 : x ≤ 12) :
    ∃ y, conv_colleague_support x = .ok y ∧ 1 ≤ y ∧ y ≤ 5 := by
  unfold conv_colleague_support
  split_ifs <;> first | exact ⟨_, rfl, by omega⟩ | omega

lemma conv_family_ok (x : Nat) (h1 : 3 ≤ x) (h2 : x ≤ 12) :
    ∃ y, conv_family_support x = .ok y ∧ 1 ≤ y ∧ y ≤ 5 := by
  unfold conv_family_support
  split_ifs <;> first | exact ⟨_, rfl, by omega⟩ | omega

lemma try_from_ok (i : IntermediateConversionScore)
    (b1 : 3 ≤ i.mental_work_stress_volume ∧ i.mental_work_stress_volume ≤ 12)
    (b2 : 3 ≤ i.mental_work_stress_quality ∧ i.mental_work_stress_quality ≤ 12)
    (b3 : 1 ≤ i.aware_physical_stress ∧ i.aware_physical_stress ≤ 4)
    (b4 : 3 ≤ i.work_people_stress ∧ i.work_people_stress ≤ 12)
    (b5 : 1 ≤ i.work_env_stress ∧ i.work_env_stress ≤ 4)
    (b6 : 3 ≤ i.work_control ∧ i.work_control ≤ 12)
    (b7 : 1 ≤ i.skill_apply ∧ i.skill_apply ≤ 4)
    (b8 : 1 ≤ i.work_apply ∧ i.work_apply ≤ 4)
    (b9 : 1 ≤ i.decent_work ∧ i.decent_work ≤ 4)
    (b10 : 3 ≤ i.vitality ∧ i.vitality ≤ 12)
    (b11 : 3 ≤ i.iraira ∧ i.iraira ≤ 12)
    (b12 : 3 ≤ i.tired ∧ i.tired ≤ 12)
    (b13 : 3 ≤ i.anxious ∧ i.anxious ≤ 12)
    (b14 : 6 ≤ i.depressed ∧ i.depressed ≤ 24)
    (b15 : 11 ≤ i.physical_complaint ∧ i.physical_complaint ≤ 44)
    (b16 : 3 ≤ i.boss_support ∧ i.boss_support ≤ 12)
    (b17 : 3 ≤ i.colleague_support ∧ i.colleague_support ≤ 12)
    (b18 : 3 ≤ i.family_support ∧ i.family_support ≤ 12) :
    ∃ c, try_from i = .ok c ∧ c.Valid := by
  obtain ⟨y1, hy1, hq1⟩ := conv_volume_ok i.mental_work_stress_volume b1.1 b1.2
  obtain ⟨y2, hy2, hq2⟩ := conv_quality_ok i.mental_work_stress_quality b2.1 b2.2
  obtain ⟨y3, hy3, hq3⟩ := conv_aware_ok i.aware_physical_stress b3.1 b3.2
  obtain ⟨y4, hy4, hq4⟩ := conv_people_ok i.work_people_stress b4.1 b4.2
  obtain ⟨y5, hy5, hq5⟩ := conv_env_ok i.work_env_stress b5.1 b5.2
  obtain ⟨y6, hy6, hq6⟩ := conv_control_ok i.work_control b6.1 b6.2
  obtain ⟨y7, hy7, hq7⟩ := conv_skill_ok i.skill_apply b7.1 b7.2
  obtain ⟨y8, hy8, hq8⟩ := conv_work_apply_ok i.work_apply b8.1 b8.2
  obtain ⟨y9, hy9, hq9⟩ := conv_decent_ok i.decent_work b9.1 b9.2
  obtain ⟨y10, hy10, hq10⟩ := conv_vitality_ok i.vitality b10.1 b10.2
  obtain ⟨y11, hy11, hq11⟩ := conv_iraira_ok i.iraira b11.1 b11.2
  obtain ⟨y12, hy12, hq12⟩ := conv_tired_ok i.tired b12.1 b12.2
  obtain ⟨y13, hy13, hq13⟩ := conv_anxious_ok i.anxious b13.1 b13.2
  obtain ⟨y14, hy14, hq14⟩ := conv_depressed_ok i.depressed b14.1 b14.2
  obtain ⟨y15, hy15, hq15⟩ := conv_physical_ok i.physical_complaint b15.1 b15.2
  obtain ⟨y16, hy16, hq16⟩ := conv_boss_ok i.boss_support b16.1 b16.2
  obtain ⟨y17, hy17, hq17⟩ := conv_colleague_ok i.colleague_support b17.1 b17.2
  obtain ⟨y18, hy18, hq18⟩ := conv_family_ok i.family_support b18.1 b18.2
  refine ⟨⟨y1, y2, y3, y4, y5, y6, y7, y8, y9, y10, y11, y12, y13, y14, y15,
    y16, y17, y18⟩, ?_, ?_⟩
  · simp only [try_from, hy1, hy2, hy3, hy4, hy5, hy6, hy7, hy8, hy9, hy10,
      hy11, hy12, hy13, hy14, hy15, hy16, hy17, hy18, except_ok_bind]
    rfl
  · exact ⟨hq1, hq2, hq3, hq4, hq5, hq6, hq7, hq8, hq9, hq10, hq11, hq12,
      hq13, hq14, hq15, hq16, hq17, hq18⟩

/-- C2: for every store whose 57 slots are all in `1..=4`,
`to_conversion_score` returns `Ok` (never `IllegalAnswer`: every raw
sub-scale sum lands inside its lookup table's covered ranges) and every
evaluation point of the resulting `ConversionScore` is in `1..=5`. -/
theorem to_conversion_score_ok (s : AnswerStore) (h : s.Filled) :
    ∃ c, s.to_conversion_score = .ok c ∧ c.Valid := by
  obtain ⟨hlen, hall⟩ := h
  have hany := any_zero_false s hall
  have hget : ∀ i : Nat, i < 57 →
      ∃ v, s.values.get? i = some v ∧ 1 ≤ v ∧ v ≤ 4 := by
    intro i hi
    have hi' : i < s.values.length := by rw [hlen]; exact hi
    exact ⟨s.values.get ⟨i, hi'⟩, List.get?_eq_get hi',
      hall _ (List.get_mem s.values i hi')⟩
  have hwin : ∀ k n : Nat, k + n ≤ 57 →
      n ≤ ((s.values.drop k).take n).sum ∧ ((s.values.drop k).take n).sum ≤ 4 * n := by
    intro k n hkn
    have hmem : ∀ v ∈ (s.values.drop k).take n, 1 ≤ v ∧ v ≤ 4 := fun v hv =>
      hall v (List.mem_of_mem_drop (List.mem_of_mem_take hv))
    have hlen2 : ((s.values.drop k).take n).length = n := by
      rw [List.length_take, List.length_drop, hlen]; omega
    have hb := sum_bounds_of_mem _ hmem
    rw [hlen2] at hb
    exact hb
  have h03 : 3 ≤ (s.values.take 3).sum ∧ (s.values.take 3).sum ≤ 12 := by
    have hb := hwin 0 3 (by omega)
    rw [List.drop_zero] at hb
    omega
  have h33 := hwin 3 3 (by omega)
  have h112 := hwin 11 2 (by omega)
  have h73 := hwin 7 3 (by omega)
  have h173 := hwin 17 3 (by omega)
  have h203 := hwin 20 3 (by omega)
  have h233 := hwin 23 3 (by omega)
  have h263 := hwin 26 3 (by omega)
  have h296 := hwin 29 6 (by omega)
  have h3511 := hwin 35 11 (by omega)
  obtain ⟨v7, hv7, hb7⟩ := hget 6 (by omega)
  obtain ⟨v14, hv14, hb14⟩ := hget 13 (by omega)
  obtain ⟨v15, hv15, hb15⟩ := hget 14 (by omega)
  obtain ⟨v11, hv11, hb11⟩ := hget 10 (by omega)
  obtain ⟨v16, hv16, hb16⟩ := hget 15 (by omega)
  obtain ⟨v17, hv17, hb17⟩ := hget 16 (by omega)
  obtain ⟨v47, hv47, hb47⟩ := hget 46 (by omega)
  obtain ⟨v50, hv50, hb50⟩ := hget 49 (by omega)
  obtain ⟨v53, hv53, hb53⟩ := hget 52 (by omega)
  obtain ⟨v48, hv48, hb48⟩ := hget 47 (by omega)
  obtain ⟨v51, hv51, hb51⟩ := hget 50 (by omega)
  obtain ⟨v54, hv54, hb54⟩ := hget 53 (by omega)
  obtain ⟨v49, hv49, hb49⟩ := hget 48 (by omega)
  obtain ⟨v52, hv52, hb52⟩ := hget 51 (by omega)
  obtain ⟨v55, hv55, hb55⟩ := hget 54 (by omega)
  rw [AnswerStore.to_conversion_score, if_neg (by simp [hany])]
  simp only [hv7, hv14, hv15, hv11, hv16, hv17, hv47, hv50, hv53, hv48, hv51,
    hv54, hv49, hv52, hv55, ok_or_illegal, except_ok_bind]
  exact try_from_ok _ (by dsimp only; omega) (by dsimp only; omega)
    (by dsimp only; omega) (by dsimp only; omega) (by dsimp only; omega)
    (by dsimp only; omega) (by dsimp only; omega) (by dsimp only; omega)
    (by dsimp only; omega) (by dsimp only; omega) (by dsimp only; omega)
    (by dsimp only; omega) (by dsimp only; omega) (by dsimp only; omega)
    (by dsimp only; omega) (by dsimp only; omega) (by dsimp only; omega)
    (by dsimp only; omega)

/-- Witness for `to_conversion_score_ok` at the all-ones store. -/
theorem to_conversion_score_ok_witness :
    allOnes.Filled ∧
      ∃ c, allOnes.to_conversion_score = .ok c ∧ c.Valid :=
  ⟨by decide, to_conversion_score_ok allOnes (by decide)⟩

lemma enum_take (l : List Nat) (n : Nat) : l.enum.take n = (l.take n).enum := by
  apply List.ext_get?_iff.mpr
  intro i
  by_cases hi : i < n
  · rw [List.get?_take hi, List.get?_enum, List.get?_enum, List.get?_take hi]
  · have hlen1 : (l.enum.take n).length ≤ i := by
      rw [List.length_take, List.enum_length]; omega
    have hlen2 : ((l.take n).enum).length ≤ i := by
      rw [List.enum_length, List.length_take]; omega
    rw [List.get?_eq_none.mpr hlen1, List.get?_eq_none.mpr hlen2]

lemma window_take (l1 l2 : List Nat) (m k n : Nat) (h : l1.take m = l2.take m)
    (hkn : k + n ≤ m) :
    (l1.drop k).take n = (l2.drop k).take n := by
  have e : ∀ l : List Nat, ((l.take m).drop k).take n = (l.drop k).take n := by
    intro l
    rw [List.drop_take, List.take_take]
    congr 1
    omega
  rw [← e l1, h, e l2]

lemma adjusted_take (s : AnswerStore) (n : Nat) :
    s.adjusted_values.take n =
      (s.values.take n).enum.map fun p => reverse_if (p.1 + 1) p.2 := by
  unfold AnswerStore.adjusted_values
  rw [← List.map_take, enum_take]

/-- A fully populated store agreeing with `allOnes` at positions 1-55 but
differing at positions 56 and 57. -/
def onesButTail : AnswerStore :=
  { values := List.replicate 55 1 ++ [2, 2], offset := 57 }

/-- C10: neither scorer's result depends on the answers to questions 56 and
57: two fully populated stores that agree at positions 1-55 get identical
`to_sumup_score` and identical `to_conversion_score` results. -/
theorem scorers_ignore_last_two (s1 s2 : AnswerStore)
    (h1 : s1.Filled) (h2 : s2.Filled)
    (hagree : s1.values.take 55 = s2.values.take 55) :
    s1.to_sumup_score = s2.to_sumup_score ∧
      s1.to_conversion_score = s2.to_conversion_score := by
  have hany1 := any_zero_false s1 h1.2
  have hany2 := any_zero_false s2 h2.2
  have hadj : s1.adjusted_values.take 55 = s2.adjusted_values.take 55 := by
    rw [adjusted_take, adjusted_take, hagree]
  have hg : ∀ i : Nat, i < 55 → s1.values.get? i = s2.values.get? i := by
    intro i hi
    rw [← @List.get?_take _ s1.values 55 i hi, hagree,
      @List.get?_take _ s2.values 55 i hi]
  constructor
  · rw [AnswerStore.to_sumup_score, AnswerStore.to_sumup_score,
      if_neg (by simp [hany1]), if_neg (by simp [hany2])]
    have e1 : s1.adjusted_values.take 17 = s2.adjusted_values.take 17 := by
      have e := window_take _ _ 55 0 17 hadj (by omega)
      simpa [List.drop_zero] using e
    have e2 := window_take s1.adjusted_values s2.adjusted_values 55 17 29 hadj (by omega)
    have e3 := window_take s1.adjusted_values s2.adjusted_values 55 46 9 hadj (by omega)
    rw [e1, e2, e3]
  · rw [AnswerStore.to_conversion_score, AnswerStore.to_conversion_score,
      if_neg (by simp [hany1]), if_neg (by simp [hany2])]
    have w03 : s1.values.take 3 = s2.values.take 3 := by
      have e := window_take _ _ 55 0 3 hagree (by omega)
      simpa [List.drop_zero] using e
    have w33 := window_take s1.values s2.values 55 3 3 hagree (by omega)
    have w112 := window_take s1.values s2.values 55 11 2 hagree (by omega)
    have w73 := window_take s1.values s2.values 55 7 3 hagree (by omega)
    have w173 := window_take s1.values s2.values 55 17 3 hagree (by omega)
    have w203 := window_take s1.values s2.values 55 20 3 hagree (by omega)
    have w233 := window_take s1.values s2.values 55 23 3 hagree (by omega)
    have w263 := window_take s1.values s2.values 55 26 3 hagree (by omega)
    have w296 := window_take s1.values s2.values 55 29 6 hagree (by omega)
    have w3511 := window_take s1.values s2.values 55 35 11 hagree (by omega)
    have g6 := hg 6 (by omega)
    have g13 := hg 13 (by omega)
    have g14 := hg 14 (by omega)
    have g10 := hg 10 (by omega)
    have g15 := hg 15 (by omega)
    have g16 := hg 16 (by omega)
    have g46 := hg 46 (by omega)
    have g49 := hg 49 (by omega)
    have g52 := hg 52 (by omega)
    have g47 := hg 47 (by omega)
    have g50 := hg 50 (by omega)
    have g53 := hg 53 (by omega)
    have g48 := hg 48 (by omega)
    have g51 := hg 51 (by omega)
    have g54 := hg 54 (by omega)
    simp only [w03, w33, w112, w73, w173, w203, w233, w263, w296, w3511,
      g6, g13, g14, g10, g15, g16, g46, g49, g52, g47, g50, g53, g48, g51, g54]

/-- Witness for `scorers_ignore_last_two`: `allOnes` and `onesButTail` agree
at positions 1-55 and get identical scores from both scorers. -/
theorem scorers_ignore_last_two_witness :
    (allOnes.Filled ∧ onesButTail.Filled ∧
        allOnes.values.take 55 = onesButTail.values.take 55) ∧
      (allOnes.to_sumup_score = onesButTail.to_sumup_score ∧
        allOnes.to_conversion_score = onesButTail.to_conversion_score) :=
  ⟨⟨by decide, by decide, by decide⟩,
    scorers_ignore_last_two allOnes onesButTail (by decide) (by decide) (by decide)⟩

end StressCheck
